import Mathlib

/-!
Shallow embedding of the notification/dialog coordination service
(`useShowMessage` composable) of this repository, together with proofs of
its specified properties.

Modelling conventions:
* JavaScript strings are Lean `String`s; a value that may be `undefined`
  is an `Option`.  JavaScript truthiness on such a value (`!x`, `x ? _ : _`)
  is `truthy`: `undefined` and the empty string are falsy.
* The module-level mutable state (`stickyNotificationQueue`) and the
  observable effects (notifications created, telemetry events, external-hook
  invocations, `close()` calls) are threaded explicitly through a `CState`
  record; each effectful source function becomes a state-passing function.
* External collaborators that the source imports (`sanitizeHtml`,
  `locale.baseText`, the workflow store's current id) are parameters of an
  `Env` record; the underlying dialog primitive's resolution/rejection is a
  `DialogResult` parameter.
* Notification handles are identified by the `Nat` id assigned at creation;
  `close()` invocations are recorded in a log.
* Click handlers are modelled by the list of primitive actions running them
  performs (`Action`), so that "closes the notification and then runs the
  caller's handler" is a statement about the action list.
-/

namespace ShowMessage

/-- JavaScript truthiness of a possibly-undefined string:
`undefined` and `""` are falsy, every other string is truthy. -/
def truthy : Option String → Bool
  | none => false
  | some s => !(s == "")

/-- JavaScript `a || b` on possibly-undefined strings. -/
def jsOr (a b : Option String) : Option String :=
  if truthy a then a else b

/-- `startsWithL l p` : the character list `l` starts with `p`. -/
def startsWithL : List Char → List Char → Bool
  | _, [] => true
  | [], _ :: _ => false
  | c :: cs, p :: ps => c == p && startsWithL cs ps

/-- `includesFrom pat l` : `pat` occurs as a contiguous run inside `l`. -/
def includesFrom (pat : List Char) : List Char → Bool
  | [] => startsWithL [] pat
  | c :: rest => startsWithL (c :: rest) pat || includesFrom pat rest

/-- JavaScript `s.includes(pat)`. -/
def jsIncludes (s pat : String) : Bool :=
  includesFrom pat.toList s.toList

/-- Source `causedByCredential`: heuristic classifier of credential errors.
`if (!message) return false; return message.includes('Credentials for') &&
message.includes('are not set');` -/
def causedByCredential (message : Option String) : Bool :=
  if !(truthy message) then false
  else
    jsIncludes (message.getD "") "Credentials for" &&
      jsIncludes (message.getD "") "are not set"

/-- External collaborators of the coordinator (imported by the source file,
not part of this slice): the HTML sanitizer, the localisation resolver and
the workflow store's current workflow id. -/
structure Env where
  sanitize : String → String
  baseText : String → String
  workflowId : String

/-- A primitive step a click handler performs when it runs. -/
inductive Action where
  | closeNotif (id : Nat)
  | runCallback (id : Nat)
  deriving DecidableEq, Repr

/-- A click handler, as the sequence of steps running it performs. -/
abbrev Handler := List Action

/-- The `ElNotificationOptions`-shaped record passed to `Notification(...)`
(with `message` optional, as in the source's widened type). -/
structure NotificationOptions where
  title : Option String := none
  message : Option String := none
  type : Option String := none
  duration : Option Int := none
  position : Option String := none
  customClass : Option String := none
  onClick : Option Handler := none
  onClose : Option Nat := none
  dangerouslyUseHTMLString : Bool := false
  deriving Repr

/-- A created notification: its handle id and the options it was created
with (element-ui copies the options at creation time). -/
structure Notification where
  id : Nat
  options : NotificationOptions
  deriving Repr

/-- A telemetry event payload, as emitted by `telemetry.track`. -/
structure TelemetryEvent where
  event : String
  error_title : Option String
  error_message : Option String
  error_description : Option String := none
  caused_by_credential : Bool
  workflow_id : String
  deriving Repr

/-- An `externalHooks.run` invocation with its payload. -/
structure HookCall where
  hookName : String
  title : String
  message : Option String
  errorMessage : String
  deriving Repr

/-- The observable state: the module-level sticky queue, plus logs of the
effects performed (notifications created, telemetry, hooks, `close()`s). -/
structure CState where
  stickyNotificationQueue : List Nat := []
  shown : List Notification := []
  telemetry : List TelemetryEvent := []
  hooks : List HookCall := []
  closeLog : List Nat := []
  nextId : Nat := 0
  deriving Repr

/-- The message rewrite performed by `showMessage`:
`messageData.message ? sanitizeHtml(messageData.message) : messageData.message`. -/
def sanitizedMessage (env : Env) (m : Option String) : Option String :=
  if truthy m then some (env.sanitize (m.getD "")) else m

/-- Source `showMessage`: sanitizes a truthy message, defaults the position,
creates the notification, pushes it on the sticky queue when
`duration === 0`, and tracks an error telemetry event when the type is
`error` and `track` is set. -/
def showMessage (env : Env) (messageData : NotificationOptions)
    (track : Bool := true) (st : CState) : Notification × CState :=
  let messageData := { messageData with dangerouslyUseHTMLString := true }
  let messageData := { messageData with
    message := sanitizedMessage env messageData.message }
  let messageData := if messageData.position = none then
      { messageData with position := some "bottom-right" }
    else messageData
  let notification : Notification := { id := st.nextId, options := messageData }
  let st := { st with shown := st.shown ++ [notification], nextId := st.nextId + 1 }
  let st := if messageData.duration = some 0 then
      { st with stickyNotificationQueue :=
          st.stickyNotificationQueue ++ [notification.id] }
    else st
  let st := if messageData.type = some "error" && track then
      { st with telemetry := st.telemetry ++ [{
          event := "Instance FE emitted error",
          error_title := messageData.title,
          error_message := messageData.message,
          caused_by_credential := causedByCredential messageData.message,
          workflow_id := env.workflowId }] }
    else st
  (notification, st)

/-- Source `clearAllStickyNotifications`: `close()` every queued handle
(each element is a real component, hence truthy), then reset the queue. -/
def clearAllStickyNotifications (st : CState) : CState :=
  let st := st.stickyNotificationQueue.foldl
    (fun s nid => { s with closeLog := s.closeLog ++ [nid] }) st
  { st with stickyNotificationQueue := [] }

/-- The node reference attached to the richer `Error` objects handled by
`collapsableDetails` (accessed as `node.name` in the source). -/
structure ErrNode where
  name : String
  deriving Repr

/-- The `Error`-typed argument of `showError`/`collapsableDetails` (the
source widens the built-in `Error` via a `ts-ignore`): a message, an
optional description and the node the destructuring reads `name` from. -/
structure UiError where
  message : String
  description : Option String := none
  node : ErrNode := { name := "" }
  deriving Repr

/-- The fixed template literal of `collapsableDetails` (lines 33–44 of the
source, whitespace included), with its three interpolation holes: the
localized summary text, `node.name` and the (possibly truncated)
description. -/
def detailsScaffold (env : Env) (nodeName errorDescription : String) : String :=
  "\n\t\t\t\t<br>\n\t\t\t\t<br>\n\t\t\t\t<details>\n\t\t\t\t\t<summary\n\t\t\t\t\t\tstyle=\"color: #ff6d5a; font-weight: bold; cursor: pointer;\"\n\t\t\t\t\t>\n\t\t\t\t\t\t"
    ++ env.baseText "showMessage.showDetails"
    ++ "\n\t\t\t\t\t</summary>\n\t\t\t\t\t<p>"
    ++ nodeName ++ ": " ++ errorDescription
    ++ "</p>\n\t\t\t\t</details>\n\t\t\t"

/-- Source `collapsableDetails`: empty for a falsy description, otherwise
the `<details>` template with the node name and the description truncated
to its first 500 characters plus `...` when longer. -/
def collapsableDetails (env : Env) (e : UiError) : String :=
  if !(truthy e.description) then ""
  else
    let description := e.description.getD ""
    let errorDescription :=
      if description.length > 500 then (description.take 500) ++ "..."
      else description
    detailsScaffold env e.node.name errorDescription

/-- Source `showError`: shows a sticky (`duration: 0`) error notification
with the composed body and telemetry tracking suppressed in `showMessage`
(`false`), then runs the external hook and emits its own telemetry event. -/
def showError (env : Env) (error : UiError) (title : String)
    (message : Option String := none) (st : CState) : CState :=
  let messageLine := if truthy message then (message.getD "") ++ "<br/>" else ""
  let st := Prod.snd <| showMessage env
    { title := some title,
      message := some ("\n\t\t\t\t\t" ++ messageLine
        ++ "\n\t\t\t\t\t<i>" ++ error.message ++ "</i>\n\t\t\t\t\t"
        ++ collapsableDetails env error),
      type := some "error",
      duration := some 0 }
    false st
  let hookPayload : HookCall := {
    hookName := "showMessage.showError",
    title := title,
    message := message,
    errorMessage := error.message }
  let st := { st with hooks := st.hooks ++ [hookPayload] }
  let telemetryPayload : TelemetryEvent := {
    event := "Instance FE emitted error",
    error_title := some title,
    error_description := message,
    error_message := some error.message,
    caused_by_credential := causedByCredential (some error.message),
    workflow_id := env.workflowId }
  let st := { st with telemetry := st.telemetry ++ [telemetryPayload] }
  st

/-- The `config` argument of `showToast` (a plain mutable object: the
source reassigns its `onClick` field). -/
structure ToastConfig where
  title : String
  message : String
  onClick : Option Handler := none
  onClose : Option Nat := none
  duration : Option Int := none
  customClass : Option String := none
  closeOnClick : Option Bool := none
  type : Option String := none
  deriving Repr

/-- Source `showToast`: first calls `showMessage` with a fresh options
object built from `config`, then — only after the notification has been
created — replaces `config.onClick` by a wrapper that closes the
notification before running the saved callback.  The returned triple is
(the notification, the `config` object as left after the call, the state). -/
def showToast (env : Env) (config : ToastConfig) (st : CState) :
    Notification × ToastConfig × CState :=
  let (notification, st) := showMessage env
    { title := some config.title,
      message := some config.message,
      onClick := config.onClick,
      onClose := config.onClose,
      duration := config.duration,
      customClass := config.customClass,
      type := config.type }
    true st
  let config :=
    if config.closeOnClick = some true then
      let cb := config.onClick
      { config with
          onClick := some (Action.closeNotif notification.id :: cb.getD []) }
    else config
  (notification, config, st)

/-- The `node` field of a run-data error: a plain node name or a richer
node reference carrying a `name`. -/
inductive NodeRef where
  | str (s : String)
  | obj (name : String)
  deriving Repr

/-- The error carried by run data (`data.resultData.error`); every field
may be absent, and the `node` key may be missing altogether. -/
structure RunError where
  message : Option String := none
  description : Option String := none
  node : Option NodeRef := none
  deriving Repr

/-- `data.resultData` of `IRunExecutionData`/`IExecuteContextData`. -/
structure ResultData where
  error : Option RunError := none
  lastNodeExecuted : Option String := none
  deriving Repr

/-- The run-data argument of `getExecutionError`. -/
structure RunExecutionData where
  resultData : ResultData
  deriving Repr

/-- Node-name resolution of `getExecutionError`
(`typeof error.node === 'string' ? error.node : error.node!.name`,
guarded by `'node' in error`). -/
def resolveNodeName : Option NodeRef → Option String
  | some (.str s) => some s
  | some (.obj name) => some name
  | none => none

/-- Source `getExecutionError`: pure derivation of the user-facing error
message from run data.  `none` models the `undefined` that the first branch
produces when both `message` and `description` are absent. -/
def getExecutionError (data : RunExecutionData) : Option String :=
  let error := data.resultData.error
  if truthy data.resultData.lastNodeExecuted && error.isSome then
    jsOr ((error.getD ({} : RunError)).message)
      ((error.getD ({} : RunError)).description)
  else
    some (match error with
      | some e =>
        if truthy e.message then
          let nodeName := resolveNodeName e.node
          let receivedError :=
            if truthy nodeName then
              (nodeName.getD "") ++ ": " ++ (e.message.getD "")
            else e.message.getD ""
          "There was a problem executing the workflow:<br /><strong>\""
            ++ receivedError ++ "\"</strong>"
        else "There was a problem executing the workflow!"
      | none => "There was a problem executing the workflow!")

/-- Outcome of the underlying `$confirm` dialog promise: resolution
(explicit acceptance) or rejection with the dialog layer's value. -/
inductive DialogResult where
  | resolved
  | rejected (value : String)
  deriving DecidableEq, Repr

/-- The call made to the underlying dialog primitive: the (sanitized)
message, the headline and the `ElMessageBoxOptions` actually passed. -/
structure DialogCall where
  message : String
  headline : String
  confirmButtonText : String
  cancelButtonText : String
  dangerouslyUseHTMLString : Bool
  showClose : Option Bool := none
  type : Option String := none
  deriving Repr

/-- Source `confirmMessage`: builds the options (button labels defaulting
to localized texts, HTML enabled, `type` spread only when truthy), shows
the sanitized message, returns `true` on resolution and `false` on any
rejection.  The dialog's outcome is the `outcome` parameter; the pair
returned is (the boolean result, the dialog call that was made). -/
def confirmMessage (env : Env) (message headline : String)
    (type : Option String := some "warning")
    (confirmButtonText : Option String := none)
    (cancelButtonText : Option String := none)
    (outcome : DialogResult) : Bool × DialogCall :=
  let call : DialogCall := {
    message := env.sanitize message,
    headline := headline,
    confirmButtonText :=
      if truthy confirmButtonText then confirmButtonText.getD ""
      else env.baseText "showMessage.ok",
    cancelButtonText :=
      if truthy cancelButtonText then cancelButtonText.getD ""
      else env.baseText "showMessage.cancel",
    dangerouslyUseHTMLString := true,
    type := if truthy type then type else none }
  match outcome with
  | .resolved => (true, call)
  | .rejected _ => (false, call)

/-- Source `confirmModal`: like `confirmMessage` but with a `showClose`
option, resolving to the sentinel `"confirmed"` on acceptance and to the
dialog's rejection value (`e as string`) on rejection. -/
def confirmModal (env : Env) (message headline : String)
    (type : Option String := some "warning")
    (confirmButtonText : Option String := none)
    (cancelButtonText : Option String := none)
    (showClose : Bool := false)
    (outcome : DialogResult) : String × DialogCall :=
  let call : DialogCall := {
    message := env.sanitize message,
    headline := headline,
    confirmButtonText :=
      if truthy confirmButtonText then confirmButtonText.getD ""
      else env.baseText "showMessage.ok",
    cancelButtonText :=
      if truthy cancelButtonText then cancelButtonText.getD ""
      else env.baseText "showMessage.cancel",
    dangerouslyUseHTMLString := true,
    showClose := some showClose,
    type := if truthy type then type else none }
  match outcome with
  | .resolved => ("confirmed", call)
  | .rejected e => (e, call)

/-- A concrete environment used for evaluating the model on sample inputs:
identity sanitizer and localisation resolver, a fixed workflow id. -/
def idEnv : Env := { sanitize := id, baseText := id, workflowId := "w1" }

/-! ## Helper lemmas -/

theorem startsWithL_iff (p : List Char) : ∀ l : List Char,
    startsWithL l p = true ↔ ∃ r, l = p ++ r := by
  induction p with
  | nil =>
    intro l
    constructor
    · intro _; exact ⟨l, rfl⟩
    · intro _; cases l <;> rfl
  | cons ph pt ih =>
    intro l
    cases l with
    | nil =>
      simp only [startsWithL, List.cons_append]
      constructor
      · intro h; exact absurd h (by simp)
      · rintro ⟨r, hr⟩; exact absurd hr (by simp)
    | cons c cs =>
      simp only [startsWithL, Bool.and_eq_true, beq_iff_eq, ih, List.cons_append]
      constructor
      · rintro ⟨hc, r, hr⟩
        exact ⟨r, by rw [hc, hr]⟩
      · rintro ⟨r, hr⟩
        injection hr with h1 h2
        exact ⟨h1, r, h2⟩

theorem includesFrom_iff (pat : List Char) : ∀ l : List Char,
    includesFrom pat l = true ↔ ∃ s t, l = s ++ (pat ++ t) := by
  intro l
  induction l with
  | nil =>
    simp only [includesFrom, startsWithL_iff]
    constructor
    · rintro ⟨r, hr⟩; exact ⟨[], r, hr⟩
    · rintro ⟨s, t, h⟩
      rcases List.append_eq_nil.mp h.symm with ⟨hs, hrest⟩
      exact ⟨t, by rw [hrest]⟩
  | cons c rest ih =>
    simp only [includesFrom, Bool.or_eq_true, startsWithL_iff, ih]
    constructor
    · rintro (⟨r, hr⟩ | ⟨s, t, ht⟩)
      · exact ⟨[], r, by simpa using hr⟩
      · exact ⟨c :: s, t, by simp [ht]⟩
    · rintro ⟨s, t, h⟩
      cases s with
      | nil => exact Or.inl ⟨t, by simpa using h⟩
      | cons c2 s2 =>
        injection h with h1 h2
        exact Or.inr ⟨s2, t, h2⟩

theorem jsIncludes_iff (s pat : String) :
    jsIncludes s pat = true ↔ ∃ l r, s.toList = l ++ (pat.toList ++ r) :=
  includesFrom_iff pat.toList s.toList

theorem causedByCredential_some (m : String) :
    causedByCredential (some m) =
      (jsIncludes m "Credentials for" && jsIncludes m "are not set") := by
  by_cases h : m = ""
  · subst h; rfl
  · simp [causedByCredential, truthy, h]

theorem appendNeEmpty (a b : String) (h : a ≠ "") : a ++ b ≠ "" := by
  intro hc
  have hd := congrArg String.data hc
  rw [String.data_append] at hd
  rcases List.append_eq_nil.mp hd with ⟨ha, _⟩
  exact h (String.ext ha)

theorem foldl_close_log (q : List Nat) : ∀ st : CState,
    q.foldl (fun s nid => { s with closeLog := s.closeLog ++ [nid] }) st =
      { st with closeLog := st.closeLog ++ q } := by
  induction q with
  | nil => intro st; cases st; simp
  | cons h t ih =>
    intro st
    simp only [List.foldl_cons, ih]
    cases st
    simp

theorem showMessage_fst (env : Env) (md : NotificationOptions) (track : Bool)
    (st : CState) :
    (showMessage env md track st).1 =
      { id := st.nextId,
        options := { md with
          dangerouslyUseHTMLString := true,
          message := sanitizedMessage env md.message,
          position := if md.position = none then some "bottom-right"
            else md.position } } := by
  by_cases hp : md.position = none <;>
  by_cases hd : md.duration = some 0 <;>
  by_cases ht : (decide (md.type = some "error") && track) = true <;>
  simp [showMessage, hp, hd, ht]

theorem showMessage_queue (env : Env) (md : NotificationOptions) (track : Bool)
    (st : CState) :
    (showMessage env md track st).2.stickyNotificationQueue =
      (if md.duration = some 0 then st.stickyNotificationQueue ++ [st.nextId]
       else st.stickyNotificationQueue) := by
  by_cases hp : md.position = none <;>
  by_cases hd : md.duration = some 0 <;>
  by_cases ht : (decide (md.type = some "error") && track) = true <;>
  simp [showMessage, hp, hd, ht]

theorem showMessage_telemetry (env : Env) (md : NotificationOptions)
    (track : Bool) (st : CState) :
    (showMessage env md track st).2.telemetry =
      (if decide (md.type = some "error") && track then st.telemetry ++
        [{ event := "Instance FE emitted error",
           error_title := md.title,
           error_message := sanitizedMessage env md.message,
           caused_by_credential :=
             causedByCredential (sanitizedMessage env md.message),
           workflow_id := env.workflowId }]
       else st.telemetry) := by
  by_cases hp : md.position = none <;>
  by_cases hd : md.duration = some 0 <;>
  by_cases ht : (decide (md.type = some "error") && track) = true <;>
  simp [showMessage, hp, hd, ht]

theorem showMessage_shown (env : Env) (md : NotificationOptions) (track : Bool)
    (st : CState) :
    (showMessage env md track st).2.shown =
      st.shown ++ [(showMessage env md track st).1] := by
  by_cases hp : md.position = none <;>
  by_cases hd : md.duration = some 0 <;>
  by_cases ht : (decide (md.type = some "error") && track) = true <;>
  simp [showMessage, hp, hd, ht]

theorem showMessage_hooks (env : Env) (md : NotificationOptions) (track : Bool)
    (st : CState) :
    (showMessage env md track st).2.hooks = st.hooks := by
  by_cases hp : md.position = none <;>
  by_cases hd : md.duration = some 0 <;>
  by_cases ht : (decide (md.type = some "error") && track) = true <;>
  simp [showMessage, hp, hd, ht]

/-! ## Claim theorems -/

/-- A credential-error message spec, as in the spec's scenario:
severity `error`, duration 0, body `"Credentials for Slack are not set"`. -/
def sampleCredentialError : NotificationOptions :=
  { title := some "t",
    message := some "Credentials for Slack are not set",
    type := some "error",
    duration := some 0 }

/-- C1 (amended): assuming the fresh handle id is not already queued, the
handle returned by `showMessage` is in the sticky queue immediately after
the call iff the spec's duration was set and equal to 0; in particular an
unset duration is not enqueued, and a non-zero duration is never enqueued. -/
theorem C1_sticky_iff_zero_duration (env : Env) (md : NotificationOptions)
    (track : Bool) (st : CState)
    (hfresh : st.nextId ∉ st.stickyNotificationQueue) :
    ((showMessage env md track st).1.id ∈
      (showMessage env md track st).2.stickyNotificationQueue) ↔
      md.duration = some 0 := by
  rw [showMessage_fst, showMessage_queue]
  by_cases hd : md.duration = some 0
  · simp [hd]
  · simp [hd, hfresh]

/-- C1 counterexample: a message spec with an UNSET duration is not
enqueued in the sticky queue, contrary to the claim that a spec with an
unset duration is also enqueued. -/
theorem C1_counterexample :
    ({ message := some "hello" } : NotificationOptions).duration = none ∧
    (showMessage idEnv { message := some "hello" } true {}).1.id ∉
      (showMessage idEnv { message := some "hello" } true {}).2.stickyNotificationQueue := by
  exact ⟨rfl, by decide⟩

/-- C1 witness: the amended claim evaluated at a concrete sticky spec on
the empty state. -/
theorem C1_witness :
    (({} : CState).nextId ∉ ({} : CState).stickyNotificationQueue) ∧
    (((showMessage idEnv sampleCredentialError true {}).1.id ∈
      (showMessage idEnv sampleCredentialError true {}).2.stickyNotificationQueue) ↔
      sampleCredentialError.duration = some 0) :=
  ⟨by decide, C1_sticky_iff_zero_duration idEnv sampleCredentialError true {}
    (by decide)⟩

/-- C5: `showMessage` emits exactly one telemetry event when the severity
is `error` and tracking is on — carrying the title, the sanitized message,
its `causedByCredential` classification and the workflow id — and emits no
telemetry event when the severity is not `error` or tracking is off. -/
theorem C5_error_telemetry (env : Env) (md : NotificationOptions)
    (track : Bool) (st : CState) :
    (md.type = some "error" → track = true →
      (showMessage env md track st).2.telemetry = st.telemetry ++
        [{ event := "Instance FE emitted error",
           error_title := md.title,
           error_message := sanitizedMessage env md.message,
           caused_by_credential :=
             causedByCredential (sanitizedMessage env md.message),
           workflow_id := env.workflowId }]) ∧
    (¬(md.type = some "error" ∧ track = true) →
      (showMessage env md track st).2.telemetry = st.telemetry) := by
  rw [showMessage_telemetry]
  constructor
  · intro h1 h2
    simp [h1, h2]
  · intro h
    rcases Decidable.not_and_iff_or_not.mp h with h1 | h2
    · simp [h1]
    · simp [Bool.eq_false_iff.mpr h2]

/-- C5 witness: the spec's scenario — an error shown with duration 0 and
body `"Credentials for Slack are not set"` emits the telemetry event with
`caused_by_credential = true` and leaves the handle in the sticky queue. -/
theorem C5_witness :
    ((showMessage idEnv sampleCredentialError true {}).2.telemetry =
      ({} : CState).telemetry ++
        [{ event := "Instance FE emitted error",
           error_title := sampleCredentialError.title,
           error_message := sanitizedMessage idEnv sampleCredentialError.message,
           caused_by_credential :=
             causedByCredential (sanitizedMessage idEnv sampleCredentialError.message),
           workflow_id := idEnv.workflowId }]) ∧
    causedByCredential (sanitizedMessage idEnv sampleCredentialError.message) = true ∧
    (showMessage idEnv sampleCredentialError true {}).1.id ∈
      (showMessage idEnv sampleCredentialError true {}).2.stickyNotificationQueue :=
  ⟨(C5_error_telemetry idEnv sampleCredentialError true {}).1 rfl rfl,
   by decide, by decide⟩

/-- C2: every `showError` call shows exactly one notification, sticky
(`duration 0`) and of severity `error`, whose body is the caller message
line, then the error's message in `<i>` tags, then the collapsible details
block; it emits exactly one telemetry event and one external-hook
invocation; and the details block is omitted when there is no description
and otherwise holds the node name and the description, truncated to its
first 500 characters plus an ellipsis exactly when longer than 500. -/
theorem C2_showError_composition (env : Env) (e : UiError) (title : String)
    (msg : Option String) (st : CState) :
    ((showError env e title msg st).telemetry.length =
      st.telemetry.length + 1) ∧
    ((showError env e title msg st).hooks.length = st.hooks.length + 1) ∧
    (∃ n : Notification,
      (showError env e title msg st).shown = st.shown ++ [n] ∧
      n.options.duration = some 0 ∧
      n.options.type = some "error" ∧
      n.options.message = some (env.sanitize ("\n\t\t\t\t\t"
        ++ (if truthy msg then msg.getD "" ++ "<br/>" else "")
        ++ "\n\t\t\t\t\t<i>" ++ e.message ++ "</i>\n\t\t\t\t\t"
        ++ collapsableDetails env e))) ∧
    (e.description = none → collapsableDetails env e = "") ∧
    (∀ d : String, e.description = some d → 500 < d.length →
      collapsableDetails env e =
        detailsScaffold env e.node.name (d.take 500 ++ "...")) ∧
    (∀ d : String, e.description = some d → d ≠ "" → d.length ≤ 500 →
      collapsableDetails env e = detailsScaffold env e.node.name d) := by
  have hbodyTruthy : truthy (some ("\n\t\t\t\t\t"
      ++ (if truthy msg then msg.getD "" ++ "<br/>" else "")
      ++ "\n\t\t\t\t\t<i>" ++ e.message ++ "</i>\n\t\t\t\t\t"
      ++ collapsableDetails env e)) = true := by
    simp only [truthy, Bool.not_eq_eq_eq_not, Bool.not_true, beq_eq_false_iff_ne,
      ne_eq]
    intro hc
    exact appendNeEmpty _ _ (appendNeEmpty _ _ (appendNeEmpty _ _
      (appendNeEmpty _ _ (appendNeEmpty _ _ (by decide))))) hc
  refine ⟨?_, ?_, ?_, ?_, ?_, ?_⟩
  · simp only [showError]
    rw [showMessage_telemetry]
    simp
  · simp only [showError]
    rw [showMessage_hooks]
    simp
  · refine ⟨(showMessage env
      { title := some title,
        message := some ("\n\t\t\t\t\t"
          ++ (if truthy msg then msg.getD "" ++ "<br/>" else "")
          ++ "\n\t\t\t\t\t<i>" ++ e.message ++ "</i>\n\t\t\t\t\t"
          ++ collapsableDetails env e),
        type := some "error",
        duration := some 0 } false st).1, ?_, ?_, ?_, ?_⟩
    · simp only [showError]
      rw [showMessage_shown]
    · rw [showMessage_fst]
    · rw [showMessage_fst]
    · rw [showMessage_fst]
      simp only [sanitizedMessage, hbodyTruthy, if_true, Option.getD_some]
  · intro h
    simp [collapsableDetails, h, truthy]
  · intro d hd h500
    have hne : ¬(d == "") = true := by
      simp only [beq_iff_eq]
      intro hc
      rw [hc] at h500
      simp at h500
    simp only [collapsableDetails, hd, truthy, hne, Bool.not_false, if_false,
      Option.getD_some]
    simp [h500]
  · intro d hd hne h500
    simp only [collapsableDetails, hd, truthy, beq_iff_eq, hne, Bool.not_false,
      if_false, Option.getD_some, decide_eq_true_eq]
    simp only [Nat.not_lt.mpr h500, if_false]
    have hb : (d == "") = false := beq_eq_false_iff_ne.mpr hne
    simp [hb]

/-- An error carrying a 600-character description, as in the spec's
truncation example. -/
def longDescriptionError : UiError :=
  { message := "boom",
    description := some (String.mk (List.replicate 600 'a')),
    node := { name := "Slack" } }

/-- An error with no description (the details block must be omitted). -/
def noDescriptionError : UiError :=
  { message := "boom", node := { name := "Slack" } }

/-- C2 witness: a 600-character description is truncated to its first 500
characters plus an ellipsis inside the details block; an error with no
description yields no details block; and the concrete `showError` call
emits exactly one telemetry event and one hook invocation. -/
theorem C2_witness :
    collapsableDetails idEnv longDescriptionError =
      detailsScaffold idEnv longDescriptionError.node.name
        ((String.mk (List.replicate 600 'a')).take 500 ++ "...") ∧
    collapsableDetails idEnv noDescriptionError = "" ∧
    (showError idEnv longDescriptionError "t" none {}).telemetry.length =
      ({} : CState).telemetry.length + 1 ∧
    (showError idEnv longDescriptionError "t" none {}).hooks.length =
      ({} : CState).hooks.length + 1 :=
  ⟨(C2_showError_composition idEnv longDescriptionError "t" none {}).2.2.2.2.1
      (String.mk (List.replicate 600 'a')) rfl
      (by rw [String.length_mk, List.length_replicate]; norm_num),
   (C2_showError_composition idEnv noDescriptionError "t" none {}).2.2.2.1 rfl,
   (C2_showError_composition idEnv longDescriptionError "t" none {}).1,
   (C2_showError_composition idEnv longDescriptionError "t" none {}).2.1⟩

/-- C9: `causedByCredential(message)` is true iff the message contains both
the substring `"Credentials for"` and the substring `"are not set"`
(containment stated as an explicit character-list decomposition), and it is
false for an undefined or empty message. -/
theorem C9_causedByCredential_substring_characterization :
    (∀ m : String, causedByCredential (some m) = true ↔
      ((∃ l r, m.toList = l ++ ("Credentials for".toList ++ r)) ∧
       (∃ l r, m.toList = l ++ ("are not set".toList ++ r)))) ∧
    causedByCredential none = false ∧
    causedByCredential (some "") = false := by
  refine ⟨?_, rfl, rfl⟩
  intro m
  rw [causedByCredential_some, Bool.and_eq_true, jsIncludes_iff, jsIncludes_iff]

/-- C3: `confirmMessage` resolves `true` exactly when the underlying dialog
promise resolves, and `false` on every rejection, whatever its value; being
a total function of the dialog outcome, it propagates no exception. -/
theorem C3_confirmMessage_resolution :
    ∀ (env : Env) (message headline : String) (type cbt cct : Option String),
      (∀ outcome, (confirmMessage env message headline type cbt cct outcome).1 = true ↔
        outcome = DialogResult.resolved) ∧
      (∀ v, (confirmMessage env message headline type cbt cct
        (DialogResult.rejected v)).1 = false) := by
  intro env message headline type cbt cct
  refine ⟨?_, fun v => rfl⟩
  intro outcome
  cases outcome with
  | resolved => simp [confirmMessage]
  | rejected v => simp [confirmMessage]

/-- C4: `confirmModal` resolves to the sentinel `"confirmed"` exactly on
dialog resolution, and passes every rejection value through unchanged; being
a total function of the dialog outcome, it propagates no exception. -/
theorem C4_confirmModal_sentinel :
    ∀ (env : Env) (message headline : String) (type cbt cct : Option String)
      (sc : Bool),
      ((confirmModal env message headline type cbt cct sc
          DialogResult.resolved).1 = "confirmed") ∧
      (∀ v, (confirmModal env message headline type cbt cct sc
          (DialogResult.rejected v)).1 = v) :=
  fun _ _ _ _ _ _ _ => ⟨rfl, fun _ => rfl⟩

/-- C10: both `confirmMessage` and `confirmModal` pass the sanitized message
to the underlying dialog and enable HTML interpretation
(`dangerouslyUseHTMLString`) on the dialog options. -/
theorem C10_dialog_sanitization :
    ∀ (env : Env) (message headline : String) (type cbt cct : Option String)
      (sc : Bool) (outcome : DialogResult),
      ((confirmMessage env message headline type cbt cct outcome).2.message =
          env.sanitize message ∧
       (confirmMessage env message headline type cbt cct
          outcome).2.dangerouslyUseHTMLString = true) ∧
      ((confirmModal env message headline type cbt cct sc outcome).2.message =
          env.sanitize message ∧
       (confirmModal env message headline type cbt cct sc
          outcome).2.dangerouslyUseHTMLString = true) := by
  intro env message headline type cbt cct sc outcome
  cases outcome <;> exact ⟨⟨rfl, rfl⟩, ⟨rfl, rfl⟩⟩

/-- C8: `getExecutionError` returns, for run data with a non-empty
`lastNodeExecuted` and an error, the error's message — falling back to its
description when the message is absent or empty; otherwise the fixed
generic failure sentence, except that an error with a truthy message is
returned wrapped in the fixed templated sentence, prefixed with the node
name resolved from the `node` field (plain string or object) when present. -/
theorem C8_getExecutionError_cases (data : RunExecutionData) :
    (∀ e : RunError, data.resultData.error = some e →
      truthy data.resultData.lastNodeExecuted = true →
      truthy e.message = true →
      getExecutionError data = e.message) ∧
    (∀ e : RunError, data.resultData.error = some e →
      truthy data.resultData.lastNodeExecuted = true →
      truthy e.message = false →
      getExecutionError data = e.description) ∧
    (data.resultData.error = none →
      getExecutionError data =
        some "There was a problem executing the workflow!") ∧
    (∀ e : RunError, data.resultData.error = some e →
      truthy data.resultData.lastNodeExecuted = false →
      truthy e.message = false →
      getExecutionError data =
        some "There was a problem executing the workflow!") ∧
    (∀ e : RunError, data.resultData.error = some e →
      truthy data.resultData.lastNodeExecuted = false →
      truthy e.message = true →
      getExecutionError data = some
        ("There was a problem executing the workflow:<br /><strong>\""
          ++ (if truthy (resolveNodeName e.node) then
                (resolveNodeName e.node).getD "" ++ ": " ++ e.message.getD ""
              else e.message.getD "")
          ++ "\"</strong>")) := by
  refine ⟨?_, ?_, ?_, ?_, ?_⟩
  · intro e he hl hm
    simp [getExecutionError, he, hl, jsOr, hm]
  · intro e he hl hm
    simp [getExecutionError, he, hl, jsOr, hm]
  · intro he
    simp [getExecutionError, he]
  · intro e he hl hm
    simp [getExecutionError, he, hl, hm]
  · intro e he hl hm
    simp [getExecutionError, he, hl, hm]

/-- Run data naming a last-executed node and carrying `message = "boom"`,
as in the spec's example. -/
def runDataBoom : RunExecutionData :=
  { resultData := { error := some { message := some "boom" },
                    lastNodeExecuted := some "Node1" } }

/-- Run data with no error at all. -/
def runDataEmpty : RunExecutionData := { resultData := {} }

/-- C8 witness: the spec's examples — run data with
`lastNodeExecuted = "Node1"` and `error.message = "boom"` yields `"boom"`,
and run data with no error yields the fixed generic failure sentence. -/
theorem C8_witness :
    getExecutionError runDataBoom = some "boom" ∧
    getExecutionError runDataEmpty =
      some "There was a problem executing the workflow!" :=
  ⟨(C8_getExecutionError_cases runDataBoom).1 { message := some "boom" }
      rfl rfl rfl,
   (C8_getExecutionError_cases runDataEmpty).2.2.1 rfl⟩

/-- C6: the claim fails on the code — `showToast` installs the close-first
wrapper on the caller's `config` object only after `showMessage` has
already created the notification from a fresh options object, so the
handler attached to the displayed notification is the caller's original
handler, while the wrapper reaches only the returned config. -/
theorem C6_toast_handler_not_wrapped :
    ((showToast idEnv
      { title := "t", message := "m", onClick := some [Action.runCallback 0],
        closeOnClick := some true } {}).1.options.onClick =
      some [Action.runCallback 0]) ∧
    ((showToast idEnv
      { title := "t", message := "m", onClick := some [Action.runCallback 0],
        closeOnClick := some true } {}).2.1.onClick =
      some [Action.closeNotif 0, Action.runCallback 0]) ∧
    (showToast idEnv
      { title := "t", message := "m", onClick := some [Action.runCallback 0],
        closeOnClick := some true } {}).1.options.onClick ≠
      (showToast idEnv
        { title := "t", message := "m", onClick := some [Action.runCallback 0],
          closeOnClick := some true } {}).2.1.onClick := by
  refine ⟨?_, ?_, ?_⟩ <;> decide

/-- C7: after `clearAllStickyNotifications`, the sticky queue is empty and
`close()` has been invoked on exactly the handles that were queued, each as
many times as it occurred in the queue (once, since handles are fresh). -/
theorem C7_clearAllSticky :
    ∀ st : CState,
      (clearAllStickyNotifications st).stickyNotificationQueue = [] ∧
      (clearAllStickyNotifications st).closeLog =
        st.closeLog ++ st.stickyNotificationQueue ∧
      (∀ h : Nat, (clearAllStickyNotifications st).closeLog.count h =
        st.closeLog.count h + st.stickyNotificationQueue.count h) := by
  intro st
  unfold clearAllStickyNotifications
  rw [foldl_close_log]
  refine ⟨rfl, rfl, ?_⟩
  intro h
  simp [List.count_append]

end ShowMessage
